import Mathlib

/-!
Verification of the TIFF astronomical-metadata reader
(`tiff_astro_reader.py`, class `TIFFAstroReader`).

The file is a shallow embedding of the reader: a file is a `List Nat` of
byte values, an open file handle is the pair of the file contents and the
current cursor position, and every method of the Python class becomes a
Lean function on that state.  Python's `f.read(n)` returns the at-most-`n`
bytes available at the cursor and advances the cursor by the number of
bytes actually returned; `f.seek(p)` sets the cursor (seeking past
end-of-file is allowed and a subsequent read returns nothing).  The
top-level `extract_astronomical_metadata` wraps its body in
`try ... except (IOError, json.JSONDecodeError, struct.error): return None`;
the body is embedded as an `Except`-valued function and the handler as a
total match over the possible exception kinds.
-/

namespace StarMask

/-- An open, read-only binary file: contents plus cursor position. -/
structure Handle where
  file : List Nat
  pos : Nat
deriving DecidableEq

/-- Python `f.read(n)`: the next at-most-`n` bytes; the cursor advances by
the number of bytes actually read (a read at or past end-of-file returns
the empty list and leaves the cursor unchanged). -/
def hread (h : Handle) (n : Nat) : List Nat × Handle :=
  let data := (h.file.drop h.pos).take n
  (data, ⟨h.file, h.pos + data.length⟩)

/-- Python `f.seek(p)` (absolute). -/
def hseek (h : Handle) (p : Nat) : Handle :=
  ⟨h.file, p⟩

/-- Value of a 2-byte field, per byte order (`struct.unpack` with format
`<H` when `le = true`, `>H` otherwise). -/
def dec16 (le : Bool) (a b : Nat) : Nat :=
  if le then a + 256 * b else 256 * a + b

/-- Value of a 4-byte field, per byte order (`<I` / `>I`). -/
def dec32 (le : Bool) (a b c d : Nat) : Nat :=
  if le then a + 256 * b + 65536 * c + 16777216 * d
  else 16777216 * a + 65536 * b + 256 * c + d

/-- `TIFFAstroReader.read_uint16`: read two bytes and decode them with the
current byte order; a short read yields 0 (the cursor still advances by
the bytes actually read). -/
def read_uint16 (le : Bool) (h : Handle) : Nat × Handle :=
  let r := hread h 2
  (if r.1.length = 2 then dec16 le (r.1.headD 0) (r.1.tail.headD 0) else 0, r.2)

/-- `TIFFAstroReader.read_uint32`: read four bytes and decode them with the
current byte order; a short read yields 0. -/
def read_uint32 (le : Bool) (h : Handle) : Nat × Handle :=
  let r := hread h 4
  (if r.1.length = 4 then
    dec32 le (r.1.headD 0) (r.1.tail.headD 0) (r.1.tail.tail.headD 0)
      (r.1.tail.tail.tail.headD 0)
   else 0, r.2)

/-- `TIFFAstroReader.read_data_at_offset`: remember the cursor, seek to
`offset`, read `count` bytes, seek back. -/
def read_data_at_offset (h : Handle) (offset count : Nat) : List Nat × Handle :=
  let cur := h.pos
  let h1 := hseek h offset
  let r := hread h1 count
  (r.1, hseek r.2 cur)

/-- Lines 77-82 of `scan_exif_for_origin_data`: build the text by walking
the bytes, stopping at the first zero byte and keeping only printable
ASCII (0x20-0x7E); other bytes are skipped without stopping the walk. -/
def decodeBytes : List Nat → List Char
  | [] => []
  | b :: bs =>
    if b = 0 then []
    else if 32 ≤ b ∧ b ≤ 126 then Char.ofNat b :: decodeBytes bs
    else decodeBytes bs

/-- Python's substring test `pat in s`. -/
def containsSub (pat : List Char) : List Char → Bool
  | [] => pat.isEmpty
  | c :: cs => pat.isPrefixOf (c :: cs) || containsSub pat cs

/-- Line 85: the content sniff `"StackedInfo" in text and "{" in text`. -/
def looksLikeOriginJson (text : List Char) : Bool :=
  containsSub ("StackedInfo".data) text && containsSub ("\x7b".data) text

/-- One decoded 12-byte directory entry: `tag`, `entry_type`, `count`,
`value_offset`. -/
structure Entry where
  tag : Nat
  etype : Nat
  cnt : Nat
  voff : Nat
deriving DecidableEq

/-- The four consecutive field reads both scan loops start an iteration
with (lines 48-51 and 67-70): two `read_uint16` then two `read_uint32`. -/
def readEntry (le : Bool) (h : Handle) : Entry × Handle :=
  let (tag, h1) := read_uint16 le h
  let (entryType, h2) := read_uint16 le h1
  let (count, h3) := read_uint32 le h2
  let (valueOffset, h4) := read_uint32 le h3
  (⟨tag, entryType, count, valueOffset⟩, h4)

/-- Lines 47-54: the entry loop of `scan_ifd_for_exif`, iterated
`num_entries` times; each pass reads one 12-byte entry and returns its
`value_offset` as soon as the tag is 34665. -/
def scan_ifd_loop (le : Bool) : Nat → Handle → Option Nat × Handle
  | 0, h => (none, h)
  | Nat.succ k, h =>
    let (e, h4) := readEntry le h
    if e.tag = 34665 then (some e.voff, h4)
    else scan_ifd_loop le k h4

/-- `TIFFAstroReader.scan_ifd_for_exif`. -/
def scan_ifd_for_exif (le : Bool) (h : Handle) (offset : Nat) :
    Option Nat × Handle :=
  if offset = 0 then (none, h)
  else
    let h1 := hseek h offset
    let (numEntries, h2) := read_uint16 le h1
    if numEntries > 1000 then (none, h2)
    else scan_ifd_loop le numEntries h2

/-- Lines 66-88: the entry loop of `scan_exif_for_origin_data`.  On a
tag-37500 type-7 entry the payload bytes are fetched (cursor preserved),
decoded, and returned when the sniff passes; otherwise the loop continues
with the next entry. -/
def scan_exif_loop (le : Bool) : Nat → Handle → Option (List Char) × Handle
  | 0, h => (none, h)
  | Nat.succ k, h =>
    let (e, h4) := readEntry le h
    if e.tag = 37500 ∧ e.etype = 7 then
      let (data, h5) := read_data_at_offset h4 e.voff e.cnt
      let text := decodeBytes data
      if looksLikeOriginJson text then (some text, h5)
      else scan_exif_loop le k h5
    else scan_exif_loop le k h4

/-- `TIFFAstroReader.scan_exif_for_origin_data`. -/
def scan_exif_for_origin_data (le : Bool) (h : Handle) (exifOffset : Nat) :
    Option (List Char) × Handle :=
  let h1 := hseek h exifOffset
  let (numEntries, h2) := read_uint16 le h1
  if numEntries > 100 then (none, h2)
  else scan_exif_loop le numEntries h2

/-! ## JSON

A model of Python's `json.loads` on the texts the reader produces (which
are printable-ASCII only, since `decodeBytes` drops everything else).
Values parse per the JSON grammar, plus the `NaN` / `Infinity` /
`-Infinity` constants that `json.loads` accepts by default; `\uXXXX`
escapes are not modelled (no printable-ASCII payload needs them — the
parser simply fails on them, erring on the side of
`json.JSONDecodeError`).  Number tokens are kept as their lexemes.
Recursion is by fuel; the fuel supplied by `parseJson` is generous for
any input the reader can hand over, and running out of fuel is a parse
failure (mirroring that Python, too, fails on pathologically deep
nesting).  Objects keep their members in textual order. -/

inductive Json where
  | null
  | bool (b : Bool)
  | num (lexeme : List Char)
  | str (s : List Char)
  | arr (elements : List Json)
  | obj (members : List (List Char × Json))

/-- JSON whitespace (`' \t\n\r'`). -/
def isWs (c : Char) : Bool :=
  c = ' ' || c = '\t' || c = '\n' || c = '\r'

def skipWs : List Char → List Char
  | [] => []
  | c :: cs => if isWs c then skipWs cs else c :: cs

/-- One escape character after a backslash in a JSON string. -/
def escChar (e : Char) : Option Char :=
  if e = '"' then some '"'
  else if e = '\\' then some '\\'
  else if e = '/' then some '/'
  else if e = 'n' then some '\n'
  else if e = 't' then some '\t'
  else if e = 'r' then some '\r'
  else if e = 'b' then some (Char.ofNat 8)
  else if e = 'f' then some (Char.ofNat 12)
  else none

/-- Body of a JSON string, after the opening quote; returns the decoded
characters and the input following the closing quote.  Control characters
below 0x20 are rejected (strict mode). -/
def parseStrBody : Nat → List Char → Option (List Char × List Char)
  | 0, _ => none
  | _, [] => none
  | fuel + 1, c :: cs =>
    if c = '"' then some ([], cs)
    else if c = '\\' then
      match cs with
      | [] => none
      | e :: cs1 =>
        match escChar e with
        | none => none
        | some ch =>
          match parseStrBody fuel cs1 with
          | none => none
          | some (body, rest) => some (ch :: body, rest)
    else if c.toNat < 32 then none
    else
      match parseStrBody fuel cs with
      | none => none
      | some (body, rest) => some (c :: body, rest)

/-- A JSON number token: `-? int frac? exp?` with no leading zeros. -/
def lexNumber (s : List Char) : Option (List Char × List Char) :=
  let (sgn, s1) :=
    match s with
    | '-' :: t => (['-'], t)
    | _ => (([] : List Char), s)
  match s1 with
  | [] => none
  | c :: _ =>
    if !c.isDigit then none
    else
      let ds := s1.takeWhile Char.isDigit
      let s2 := s1.dropWhile Char.isDigit
      if c = '0' ∧ ds.length > 1 then none
      else
        let (frac, s3) :=
          match s2 with
          | '.' :: t =>
            let fs := t.takeWhile Char.isDigit
            if fs.isEmpty then (none, s2)
            else (some ('.' :: fs), t.dropWhile Char.isDigit)
          | _ => (none, s2)
        match frac, s3 with
        | none, '.' :: _ => none
        | _, _ =>
          let fracL := frac.getD []
          let (expo, s4) :=
            match s3 with
            | e :: t =>
              if e = 'e' ∨ e = 'E' then
                let (es, t1) :=
                  match t with
                  | '+' :: u => (['+'], u)
                  | '-' :: u => (['-'], u)
                  | _ => (([] : List Char), t)
                let xs := t1.takeWhile Char.isDigit
                if xs.isEmpty then (none, s3)
                else (some (e :: es ++ xs), t1.dropWhile Char.isDigit)
              else (none, s3)
            | [] => (none, s3)
          match expo, s3 with
          | none, e :: _ =>
            if e = 'e' ∨ e = 'E' then none
            else some (sgn ++ ds ++ fracL, s4)
          | _, _ => some (sgn ++ ds ++ fracL ++ expo.getD [], s4)

/-- Members of a JSON object, after the opening brace (general case:
at least one member); `pv` parses one value. -/
def parseMembersWith (pv : List Char → Option (Json × List Char)) :
    Nat → List Char → Option (List (List Char × Json) × List Char)
  | 0, _ => none
  | fuel + 1, s =>
    match skipWs s with
    | '"' :: cs =>
      match parseStrBody (cs.length + 1) cs with
      | none => none
      | some (key, rest1) =>
        match skipWs rest1 with
        | ':' :: rest2 =>
          match pv rest2 with
          | none => none
          | some (v, rest3) =>
            match skipWs rest3 with
            | ',' :: rest4 =>
              match parseMembersWith pv fuel rest4 with
              | none => none
              | some (kvs, rest5) => some ((key, v) :: kvs, rest5)
            | '\x7d' :: rest4 => some ([(key, v)], rest4)
            | _ => none
        | _ => none
    | _ => none

/-- Elements of a JSON array, after the opening bracket (general case:
at least one element); `pv` parses one value. -/
def parseElemsWith (pv : List Char → Option (Json × List Char)) :
    Nat → List Char → Option (List Json × List Char)
  | 0, _ => none
  | fuel + 1, s =>
    match pv s with
    | none => none
    | some (v, rest) =>
      match skipWs rest with
      | ',' :: rest1 =>
        match parseElemsWith pv fuel rest1 with
        | none => none
        | some (vs, rest2) => some (v :: vs, rest2)
      | ']' :: rest1 => some ([v], rest1)
      | _ => none

/-- One JSON value, leading whitespace allowed. -/
def parseVal : Nat → List Char → Option (Json × List Char)
  | 0, _ => none
  | fuel + 1, s0 =>
    let s := skipWs s0
    match s with
    | [] => none
    | c :: cs =>
      if c = '"' then
        match parseStrBody (cs.length + 1) cs with
        | none => none
        | some (body, rest) => some (.str body, rest)
      else if c = '\x7b' then
        match skipWs cs with
        | '\x7d' :: rest => some (.obj [], rest)
        | _ =>
          match parseMembersWith (parseVal fuel) (cs.length + 1) cs with
          | none => none
          | some (kvs, rest) => some (.obj kvs, rest)
      else if c = '[' then
        match skipWs cs with
        | ']' :: rest => some (.arr [], rest)
        | _ =>
          match parseElemsWith (parseVal fuel) (cs.length + 1) cs with
          | none => none
          | some (vs, rest) => some (.arr vs, rest)
      else if ("null".data).isPrefixOf s then some (.null, s.drop 4)
      else if ("true".data).isPrefixOf s then some (.bool true, s.drop 4)
      else if ("false".data).isPrefixOf s then some (.bool false, s.drop 5)
      else if ("NaN".data).isPrefixOf s then some (.num "NaN".data, s.drop 3)
      else if ("Infinity".data).isPrefixOf s then
        some (.num "Infinity".data, s.drop 8)
      else if ("-Infinity".data).isPrefixOf s then
        some (.num "-Infinity".data, s.drop 9)
      else
        match lexNumber s with
        | none => none
        | some (lx, rest) => some (.num lx, rest)

/-- `json.loads`: parse one value and require only whitespace after it. -/
def parseJson (s : List Char) : Option Json :=
  match parseVal (4 * s.length + 16) s with
  | none => none
  | some (j, rest) => if (skipWs rest).isEmpty then some j else none

/-- Key lookup in a parsed object with `dict` semantics: for a duplicated
key the later binding wins. -/
def lookupLast (k : List Char) : List (List Char × Json) → Option Json
  | [] => none
  | (k1, v) :: rest =>
    match lookupLast k rest with
    | some r => some r
    | none => if k1 = k then some v else none

/-- `json["key"]` on a parsed document. -/
def Json.getKey (j : Json) (k : List Char) : Option Json :=
  match j with
  | .obj kvs => lookupLast k kvs
  | _ => none

/-! ## Top-level extraction -/

/-- The exception kinds named by the `except` clause of
`extract_astronomical_metadata` (line 122).  `struct.error` can never be
raised (both fixed-size readers check the data length before unpacking)
but the handler names it, so the embedding carries it. -/
inductive PyErr where
  | ioError
  | jsonDecodeError
  | structError
deriving DecidableEq

/-- Lines 103-120: the body of `extract_astronomical_metadata` after the
byte-order marker has fixed the endianness, with the cursor after the
marker.  A JSON parse failure is `json.JSONDecodeError`, an exception. -/
def extractWithOrder (le : Bool) (h1 : StarMask.Handle) :
    Except PyErr (Option Json) :=
  let (magic, h2) := StarMask.read_uint16 le h1
  if magic ≠ 42 then .ok none
  else
    let (firstIfdOffset, h3) := StarMask.read_uint32 le h2
    let (exifOffset?, h4) := StarMask.scan_ifd_for_exif le h3 firstIfdOffset
    match exifOffset? with
    | none => .ok none
    | some exifOffset =>
      if exifOffset = 0 then .ok none
      else
        let (jsonText?, _h5) := StarMask.scan_exif_for_origin_data le h4 exifOffset
        match jsonText? with
        | none => .ok none
        | some jsonText =>
          if jsonText = [] then .ok none
          else
            match parseJson jsonText with
            | some j => .ok (some j)
            | none => .error PyErr.jsonDecodeError

/-- The `try` body of `extract_astronomical_metadata` (lines 93-120).
The argument is `none` when opening the file raises `IOError`
(unreadable path), otherwise the file's bytes. -/
def extractBody (file? : Option (List Nat)) : Except PyErr (Option Json) :=
  match file? with
  | none => .error PyErr.ioError
  | some file =>
    let h0 : StarMask.Handle := ⟨file, 0⟩
    let (byteOrder, h1) := StarMask.hread h0 2
    if byteOrder = [73, 73] then extractWithOrder true h1
    else if byteOrder = [77, 77] then extractWithOrder false h1
    else .ok none

/-- `TIFFAstroReader.extract_astronomical_metadata`: the body wrapped in
`except (IOError, json.JSONDecodeError, struct.error): return None`. -/
def extract_astronomical_metadata (file? : Option (List Nat)) : Option Json :=
  match extractBody file? with
  | .ok r => r
  | .error PyErr.ioError => none
  | .error PyErr.jsonDecodeError => none
  | .error PyErr.structError => none

/-! ## Decoded directory entries

`entriesAtH le k h` is the list of `k` 12-byte directory entries the
reader obtains when it starts reading at handle `h` — the same sequence
of `read_uint16` / `read_uint32` calls the scan loops perform, without
any tag interpretation.  The characterization lemmas show each scan loop
equals a first-match search over this list. -/

def entriesAtH (le : Bool) : Nat → Handle → List Entry
  | 0, _ => []
  | Nat.succ k, h =>
    let (e, h4) := readEntry le h
    e :: entriesAtH le k h4

/-- First-match search for the EXIF pointer tag, as `scan_ifd_loop`
performs it over the decoded entries. -/
def findExifE : List Entry → Option Nat
  | [] => none
  | e :: es => if e.tag = 34665 then some e.voff else findExifE es

/-- The text the payload extractor derives from one entry's value range. -/
def payloadTextOf (f : List Nat) (e : Entry) : List Char :=
  decodeBytes ((f.drop e.voff).take e.cnt)

/-- First-match search for a sniff-passing tag-37500 type-7 payload, as
`scan_exif_loop` performs it over the decoded entries. -/
def findOriginE (f : List Nat) : List Entry → Option (List Char)
  | [] => none
  | e :: es =>
    if e.tag = 37500 ∧ e.etype = 7 then
      if looksLikeOriginJson (payloadTextOf f e) then some (payloadTextOf f e)
      else findOriginE f es
    else findOriginE f es

theorem readEntry_file (le : Bool) (h : Handle) :
    ((readEntry le h).2).file = h.file := rfl

theorem read_data_at_offset_eq (h : Handle) (offset count : Nat) :
    read_data_at_offset h offset count = ((h.file.drop offset).take count, h) := rfl

theorem scan_ifd_loop_succ (le : Bool) (k : Nat) (h : Handle) :
    scan_ifd_loop le (Nat.succ k) h =
      if (readEntry le h).1.tag = 34665 then
        (some ((readEntry le h).1.voff), (readEntry le h).2)
      else scan_ifd_loop le k (readEntry le h).2 := rfl

theorem scan_exif_loop_succ (le : Bool) (k : Nat) (h : Handle) :
    scan_exif_loop le (Nat.succ k) h =
      if (readEntry le h).1.tag = 37500 ∧ (readEntry le h).1.etype = 7 then
        if looksLikeOriginJson (decodeBytes
            ((read_data_at_offset (readEntry le h).2
              (readEntry le h).1.voff (readEntry le h).1.cnt).1)) then
          (some (decodeBytes ((read_data_at_offset (readEntry le h).2
              (readEntry le h).1.voff (readEntry le h).1.cnt).1)),
           (read_data_at_offset (readEntry le h).2
              (readEntry le h).1.voff (readEntry le h).1.cnt).2)
        else scan_exif_loop le k (read_data_at_offset (readEntry le h).2
              (readEntry le h).1.voff (readEntry le h).1.cnt).2
      else scan_exif_loop le k (readEntry le h).2 := rfl

theorem entriesAtH_succ (le : Bool) (k : Nat) (h : Handle) :
    entriesAtH le (Nat.succ k) h =
      (readEntry le h).1 :: entriesAtH le k (readEntry le h).2 := rfl

theorem scan_ifd_loop_eq (le : Bool) (k : Nat) :
    ∀ h : Handle, (scan_ifd_loop le k h).1 = findExifE (entriesAtH le k h) := by
  induction k with
  | zero => intro h; rfl
  | succ k ih =>
    intro h
    rcases hre : readEntry le h with ⟨e, h4⟩
    rw [scan_ifd_loop_succ, entriesAtH_succ, hre]
    simp only [findExifE]
    by_cases htag : e.tag = 34665
    · simp [htag]
    · simp only [htag, if_false]
      exact ih h4

theorem scan_exif_loop_eq (le : Bool) (k : Nat) :
    ∀ h : Handle, (scan_exif_loop le k h).1 = findOriginE h.file (entriesAtH le k h) := by
  induction k with
  | zero => intro h; rfl
  | succ k ih =>
    intro h
    rcases hre : readEntry le h with ⟨e, h4⟩
    have hf : h4.file = h.file := by
      have h2 : (readEntry le h).2 = h4 := by rw [hre]
      rw [← h2, readEntry_file]
    rw [scan_exif_loop_succ, entriesAtH_succ, hre]
    simp only [findOriginE, read_data_at_offset_eq]
    have hpt : decodeBytes ((h4.file.drop e.voff).take e.cnt) = payloadTextOf h.file e := by
      rw [hf]; rfl
    by_cases htag : e.tag = 37500 ∧ e.etype = 7
    · rw [if_pos htag, if_pos htag, hpt]
      by_cases hsniff : looksLikeOriginJson (payloadTextOf h.file e) = true
      · rw [if_pos hsniff, if_pos hsniff]
      · rw [if_neg hsniff, if_neg hsniff, ih h4, hf]
    · rw [if_neg htag, if_neg htag, ih h4, hf]

/-! ## Facts about the fixed-size readers -/

theorem read_uint16_snd (le : Bool) (h : Handle) :
    (read_uint16 le h).2 = ⟨h.file, h.pos + ((h.file.drop h.pos).take 2).length⟩ := rfl

theorem read_uint32_snd (le : Bool) (h : Handle) :
    (read_uint32 le h).2 = ⟨h.file, h.pos + ((h.file.drop h.pos).take 4).length⟩ := rfl

/-- A short 2-byte read is coerced to the value 0 (line 20). -/
theorem read_uint16_short (le : Bool) (h : Handle)
    (hlen : h.file.length < h.pos + 2) : (read_uint16 le h).1 = 0 := by
  have hl : ((h.file.drop h.pos).take 2).length ≠ 2 := by
    simp only [List.length_take, List.length_drop]
    omega
  show (if ((h.file.drop h.pos).take 2).length = 2 then _ else 0) = 0
  rw [if_neg hl]

/-- A short 4-byte read is coerced to the value 0 (line 26). -/
theorem read_uint32_short (le : Bool) (h : Handle)
    (hlen : h.file.length < h.pos + 4) : (read_uint32 le h).1 = 0 := by
  have hl : ((h.file.drop h.pos).take 4).length ≠ 4 := by
    simp only [List.length_take, List.length_drop]
    omega
  show (if ((h.file.drop h.pos).take 4).length = 4 then _ else 0) = 0
  rw [if_neg hl]

/-- A 2-byte read that produced a nonzero value was a full read, so the
cursor advanced by exactly 2. -/
theorem read_uint16_pos_of_ne_zero (le : Bool) (h : Handle)
    (hne : (read_uint16 le h).1 ≠ 0) :
    (read_uint16 le h).2 = ⟨h.file, h.pos + 2⟩ := by
  by_cases hl : ((h.file.drop h.pos).take 2).length = 2
  · rw [read_uint16_snd, hl]
  · exfalso
    apply hne
    show (if ((h.file.drop h.pos).take 2).length = 2 then _ else 0) = 0
    rw [if_neg hl]

/-! ## Encoding

A logical TIFF structure and its byte-level encoding in either byte
order, used to state the byte-order-independence property: the same
tags, types, counts and offsets written under the `II` or the `MM`
convention. -/

def enc16 (le : Bool) (v : Nat) : List Nat :=
  if le then [v % 256, v / 256 % 256] else [v / 256 % 256, v % 256]

def enc32 (le : Bool) (v : Nat) : List Nat :=
  if le then [v % 256, v / 256 % 256, v / 65536 % 256, v / 16777216 % 256]
  else [v / 16777216 % 256, v / 65536 % 256, v / 256 % 256, v % 256]

theorem enc16_length (le : Bool) (v : Nat) : (enc16 le v).length = 2 := by
  cases le <;> rfl

theorem enc32_length (le : Bool) (v : Nat) : (enc32 le v).length = 4 := by
  cases le <;> rfl

/-- Dropping the length of a leading chunk of a known decomposition. -/
theorem drop_of_drop_append (f : List Nat) (p n : Nat) (X r : List Nat)
    (hX : X.length = n) (hd : f.drop p = X ++ r) : f.drop (p + n) = r := by
  have h1 : f.drop (p + n) = (f.drop p).drop n := (List.drop_drop n p f).symm
  rw [h1, hd, ← hX, List.drop_left]

theorem read_uint16_enc (le : Bool) (f : List Nat) (p v : Nat) (r : List Nat)
    (hd : f.drop p = enc16 le v ++ r) (hv : v < 65536) :
    read_uint16 le ⟨f, p⟩ = (v, ⟨f, p + 2⟩) := by
  have hdata : (f.drop p).take 2 = enc16 le v := by
    rw [hd, ← enc16_length le v, List.take_left]
  have hsnd : (read_uint16 le ⟨f, p⟩).2 = ⟨f, p + 2⟩ := by
    rw [read_uint16_snd]
    show (⟨f, p + ((f.drop p).take 2).length⟩ : Handle) = ⟨f, p + 2⟩
    rw [hdata, enc16_length]
  have hfst : (read_uint16 le ⟨f, p⟩).1 = v := by
    show (if ((f.drop p).take 2).length = 2 then
        dec16 le (((f.drop p).take 2).headD 0) (((f.drop p).take 2).tail.headD 0)
      else 0) = v
    rw [hdata]
    cases le <;> simp [enc16, dec16] <;> omega
  rw [← hfst, ← hsnd]

theorem read_uint32_enc (le : Bool) (f : List Nat) (p v : Nat) (r : List Nat)
    (hd : f.drop p = enc32 le v ++ r) (hv : v < 4294967296) :
    read_uint32 le ⟨f, p⟩ = (v, ⟨f, p + 4⟩) := by
  have hdata : (f.drop p).take 4 = enc32 le v := by
    rw [hd, ← enc32_length le v, List.take_left]
  have hsnd : (read_uint32 le ⟨f, p⟩).2 = ⟨f, p + 4⟩ := by
    rw [read_uint32_snd]
    show (⟨f, p + ((f.drop p).take 4).length⟩ : Handle) = ⟨f, p + 4⟩
    rw [hdata, enc32_length]
  have hfst : (read_uint32 le ⟨f, p⟩).1 = v := by
    show (if ((f.drop p).take 4).length = 4 then
        dec32 le (((f.drop p).take 4).headD 0) (((f.drop p).take 4).tail.headD 0)
          (((f.drop p).take 4).tail.tail.headD 0) (((f.drop p).take 4).tail.tail.tail.headD 0)
      else 0) = v
    rw [hdata]
    cases le <;> simp [enc32, dec32] <;> omega
  rw [← hfst, ← hsnd]

/-! ## Result characterizations of the two scans and of the pipeline -/

theorem hseek_eq (h : Handle) (p : Nat) : hseek h p = ⟨h.file, p⟩ := rfl

theorem scan_ifd_for_exif_def (le : Bool) (h : Handle) (off : Nat) :
    scan_ifd_for_exif le h off =
      if off = 0 then (none, h)
      else if (read_uint16 le (hseek h off)).1 > 1000 then
        (none, (read_uint16 le (hseek h off)).2)
      else scan_ifd_loop le (read_uint16 le (hseek h off)).1
        (read_uint16 le (hseek h off)).2 := rfl

theorem scan_exif_for_origin_data_def (le : Bool) (h : Handle) (off : Nat) :
    scan_exif_for_origin_data le h off =
      if (read_uint16 le (hseek h off)).1 > 100 then
        (none, (read_uint16 le (hseek h off)).2)
      else scan_exif_loop le (read_uint16 le (hseek h off)).1
        (read_uint16 le (hseek h off)).2 := rfl

/-- What `scan_ifd_for_exif` returns, as a function of the file bytes and
the offset alone (the incoming cursor position is irrelevant: the scan
seeks first). -/
theorem scan_ifd_result (le : Bool) (h : Handle) (off : Nat) :
    (scan_ifd_for_exif le h off).1 =
      if off = 0 then none
      else if (read_uint16 le ⟨h.file, off⟩).1 > 1000 then none
      else findExifE (entriesAtH le (read_uint16 le ⟨h.file, off⟩).1
        (read_uint16 le ⟨h.file, off⟩).2) := by
  rw [scan_ifd_for_exif_def, hseek_eq]
  by_cases h0 : off = 0
  · rw [if_pos h0, if_pos h0]
  · rw [if_neg h0, if_neg h0]
    by_cases hc : (read_uint16 le (⟨h.file, off⟩ : Handle)).1 > 1000
    · rw [if_pos hc, if_pos hc]
    · rw [if_neg hc, if_neg hc, scan_ifd_loop_eq]

/-- What `scan_exif_for_origin_data` returns, as a function of the file
bytes and the offset alone. -/
theorem scan_exif_result (le : Bool) (h : Handle) (off : Nat) :
    (scan_exif_for_origin_data le h off).1 =
      if (read_uint16 le ⟨h.file, off⟩).1 > 100 then none
      else findOriginE h.file (entriesAtH le (read_uint16 le ⟨h.file, off⟩).1
        (read_uint16 le ⟨h.file, off⟩).2) := by
  rw [scan_exif_for_origin_data_def, hseek_eq]
  by_cases hc : (read_uint16 le (⟨h.file, off⟩ : Handle)).1 > 100
  · rw [if_pos hc, if_pos hc]
  · rw [if_neg hc, if_neg hc, scan_exif_loop_eq]
    rfl

theorem scan_ifd_loop_file (le : Bool) (k : Nat) :
    ∀ h : Handle, ((scan_ifd_loop le k h).2).file = h.file := by
  induction k with
  | zero => intro h; rfl
  | succ k ih =>
    intro h
    rcases hre : readEntry le h with ⟨e, h4⟩
    have hf : h4.file = h.file := by
      have h2 : (readEntry le h).2 = h4 := by rw [hre]
      rw [← h2, readEntry_file]
    rw [scan_ifd_loop_succ, hre]
    by_cases htag : e.tag = 34665
    · rw [if_pos htag]
      exact hf
    · rw [if_neg htag]
      rw [ih h4, hf]

theorem scan_ifd_for_exif_file (le : Bool) (h : Handle) (off : Nat) :
    ((scan_ifd_for_exif le h off).2).file = h.file := by
  rw [scan_ifd_for_exif_def, hseek_eq]
  by_cases h0 : off = 0
  · rw [if_pos h0]
  · rw [if_neg h0]
    by_cases hc : (read_uint16 le (⟨h.file, off⟩ : Handle)).1 > 1000
    · rw [if_pos hc]
      rfl
    · rw [if_neg hc, scan_ifd_loop_file]
      rfl

/-- The pipeline below the header (steps 2-6 of the extraction), phrased
against canonical handles: root scan at offset 8 on the value read at
position 4, EXIF scan on the returned offset, then decode and parse. -/
def afterHeader (file : List Nat) (le : Bool) : Except PyErr (Option Json) :=
  match (scan_ifd_for_exif le ⟨file, 8⟩ (read_uint32 le ⟨file, 4⟩).1).1 with
  | none => .ok none
  | some exifOffset =>
    if exifOffset = 0 then .ok none
    else
      match (scan_exif_for_origin_data le ⟨file, 0⟩ exifOffset).1 with
      | none => .ok none
      | some jsonText =>
        if jsonText = [] then .ok none
        else
          match parseJson jsonText with
          | some j => .ok (some j)
          | none => .error PyErr.jsonDecodeError

theorem extractWithOrder_def (le : Bool) (h1 : Handle) :
    extractWithOrder le h1 =
      if (read_uint16 le h1).1 ≠ 42 then .ok none
      else
        match (scan_ifd_for_exif le (read_uint32 le (read_uint16 le h1).2).2
            (read_uint32 le (read_uint16 le h1).2).1).1 with
        | none => .ok none
        | some exifOffset =>
          if exifOffset = 0 then .ok none
          else
            match (scan_exif_for_origin_data le
                (scan_ifd_for_exif le (read_uint32 le (read_uint16 le h1).2).2
                  (read_uint32 le (read_uint16 le h1).2).1).2 exifOffset).1 with
            | none => .ok none
            | some jsonText =>
              if jsonText = [] then .ok none
              else
                match parseJson jsonText with
                | some j => .ok (some j)
                | none => .error PyErr.jsonDecodeError := rfl

/-- With a recognized byte-order marker and a correct magic number, the
extraction body is exactly the canonical pipeline `afterHeader`. -/
theorem extractBody_eq (file : List Nat) (le : Bool)
    (hbo : (file.take 2 = [73, 73] ∧ le = true) ∨ (file.take 2 = [77, 77] ∧ le = false))
    (hm : (read_uint16 le ⟨file, 2⟩).1 = 42) :
    extractBody (some file) = afterHeader file le := by
  have hstep : extractBody (some file) = extractWithOrder le ⟨file, 2⟩ := by
    show (if file.take 2 = [73, 73] then
        extractWithOrder true ⟨file, 0 + (file.take 2).length⟩
      else if file.take 2 = [77, 77] then
        extractWithOrder false ⟨file, 0 + (file.take 2).length⟩
      else .ok none) = extractWithOrder le ⟨file, 2⟩
    rcases hbo with ⟨hb, hle⟩ | ⟨hb, hle⟩ <;> subst hle <;> rw [hb] <;> simp
  rw [hstep, extractWithOrder_def]
  have hm' : ¬((read_uint16 le ⟨file, 2⟩).1 ≠ 42) := by
    rw [hm]
    exact fun hc => hc rfl
  rw [if_neg hm']
  have hp2 : (read_uint16 le ⟨file, 2⟩).2 = ⟨file, 4⟩ := by
    have h42 : (read_uint16 le ⟨file, 2⟩).1 ≠ 0 := by
      rw [hm]
      norm_num
    exact read_uint16_pos_of_ne_zero le ⟨file, 2⟩ h42
  rw [hp2]
  have hv' : (scan_ifd_for_exif le (read_uint32 le ⟨file, 4⟩).2
      (read_uint32 le ⟨file, 4⟩).1).1
      = (scan_ifd_for_exif le ⟨file, 8⟩ (read_uint32 le ⟨file, 4⟩).1).1 := by
    rw [scan_ifd_result, scan_ifd_result]
    rfl
  rw [hv']
  show (match (scan_ifd_for_exif le ⟨file, 8⟩ (read_uint32 le ⟨file, 4⟩).1).1 with
    | none => (.ok none : Except PyErr (Option Json))
    | some exifOffset =>
      if exifOffset = 0 then .ok none
      else
        match (scan_exif_for_origin_data le
            (scan_ifd_for_exif le (read_uint32 le ⟨file, 4⟩).2
              (read_uint32 le ⟨file, 4⟩).1).2 exifOffset).1 with
        | none => .ok none
        | some jsonText =>
          if jsonText = [] then .ok none
          else
            match parseJson jsonText with
            | some j => .ok (some j)
            | none => .error PyErr.jsonDecodeError) = afterHeader file le
  have hexif : ∀ exifOffset : Nat,
      (scan_exif_for_origin_data le
        (scan_ifd_for_exif le (read_uint32 le ⟨file, 4⟩).2
          (read_uint32 le ⟨file, 4⟩).1).2 exifOffset).1
      = (scan_exif_for_origin_data le ⟨file, 0⟩ exifOffset).1 := by
    intro exifOffset
    rw [scan_exif_result, scan_exif_result]
    rw [scan_ifd_for_exif_file]
    rfl
  unfold afterHeader
  cases (scan_ifd_for_exif le ⟨file, 8⟩ (read_uint32 le ⟨file, 4⟩).1).1 with
  | none => rfl
  | some exifOffset =>
    show (if exifOffset = 0 then (.ok none : Except PyErr (Option Json)) else _)
      = (if exifOffset = 0 then .ok none else _)
    by_cases h0 : exifOffset = 0
    · rw [if_pos h0, if_pos h0]
    · rw [if_neg h0, if_neg h0, hexif exifOffset]

/-! ## A logical TIFF structure and its canonical encoding

The same logical directory structure written under either byte-order
convention: header (order marker, magic 42, first-IFD offset 8), the
root IFD at offset 8, the EXIF IFD immediately after it, and a payload
region (`tailBytes`) after both directories. -/

def encEntry (le : Bool) (e : Entry) : List Nat :=
  enc16 le e.tag ++ (enc16 le e.etype ++ (enc32 le e.cnt ++ enc32 le e.voff))

def encEntries (le : Bool) : List Entry → List Nat
  | [] => []
  | e :: es => encEntry le e ++ encEntries le es

def encDir (le : Bool) (es : List Entry) : List Nat :=
  enc16 le es.length ++ encEntries le es

structure LogicalTiff where
  rootEntries : List Entry
  exifEntries : List Entry
  tailBytes : List Nat

/-- Offset of the EXIF IFD in the canonical encoding. -/
def exifOfs (t : LogicalTiff) : Nat := 10 + 12 * t.rootEntries.length

/-- Offset of the payload region in the canonical encoding. -/
def dataOfs (t : LogicalTiff) : Nat := exifOfs t + 2 + 12 * t.exifEntries.length

def encodeTiff (le : Bool) (t : LogicalTiff) : List Nat :=
  (if le then [73, 73] else [77, 77]) ++
    (enc16 le 42 ++
      (enc32 le 8 ++
        (encDir le t.rootEntries ++ (encDir le t.exifEntries ++ t.tailBytes))))

/-- Field values that fit their on-disk width. -/
def entryWF (e : Entry) : Prop :=
  e.tag < 65536 ∧ e.etype < 65536 ∧ e.cnt < 4294967296 ∧ e.voff < 4294967296

/-- Well-formedness of a logical TIFF for the canonical encoding: all
fields fit their width, every EXIF-pointer entry points at the encoded
EXIF IFD, and every payload entry's value range lies in the payload
region. -/
def WFTiff (t : LogicalTiff) : Prop :=
  t.rootEntries.length < 65536 ∧ t.exifEntries.length < 65536 ∧
  (∀ e ∈ t.rootEntries, entryWF e) ∧ (∀ e ∈ t.exifEntries, entryWF e) ∧
  (∀ e ∈ t.rootEntries, e.tag = 34665 → e.voff = exifOfs t) ∧
  (∀ e ∈ t.exifEntries, e.tag = 37500 → e.etype = 7 → dataOfs t ≤ e.voff)

instance (t : LogicalTiff) : Decidable (WFTiff t) := by
  unfold WFTiff entryWF
  infer_instance

theorem encEntries_length (le : Bool) :
    ∀ es : List Entry, (encEntries le es).length = 12 * es.length := by
  intro es
  induction es with
  | nil => rfl
  | cons e es ih =>
    simp only [encEntries, encEntry, List.length_append, enc16_length, enc32_length,
      List.length_cons, ih]
    ring

theorem encodeTiff_take_2 (le : Bool) (t : LogicalTiff) :
    (encodeTiff le t).take 2 = if le then [73, 73] else [77, 77] := by
  cases le <;> rfl

theorem encodeTiff_drop_2 (le : Bool) (t : LogicalTiff) :
    (encodeTiff le t).drop 2 =
      enc16 le 42 ++
        (enc32 le 8 ++
          (encDir le t.rootEntries ++ (encDir le t.exifEntries ++ t.tailBytes))) := by
  have h0 : (encodeTiff le t).drop 0 =
      (if le then [73, 73] else [77, 77]) ++
        (enc16 le 42 ++
          (enc32 le 8 ++
            (encDir le t.rootEntries ++ (encDir le t.exifEntries ++ t.tailBytes)))) := rfl
  have h := drop_of_drop_append _ 0 2 _ _ (by cases le <;> rfl) h0
  simpa using h

theorem encodeTiff_drop_4 (le : Bool) (t : LogicalTiff) :
    (encodeTiff le t).drop 4 =
      enc32 le 8 ++ (encDir le t.rootEntries ++ (encDir le t.exifEntries ++ t.tailBytes)) := by
  have h := drop_of_drop_append _ 2 2 _ _ (enc16_length le 42) (encodeTiff_drop_2 le t)
  simpa using h

theorem encodeTiff_drop_8 (le : Bool) (t : LogicalTiff) :
    (encodeTiff le t).drop 8 =
      encDir le t.rootEntries ++ (encDir le t.exifEntries ++ t.tailBytes) := by
  have h := drop_of_drop_append _ 4 4 _ _ (enc32_length le 8) (encodeTiff_drop_4 le t)
  simpa using h

theorem encodeTiff_drop_8' (le : Bool) (t : LogicalTiff) :
    (encodeTiff le t).drop 8 =
      enc16 le t.rootEntries.length ++
        (encEntries le t.rootEntries ++ (encDir le t.exifEntries ++ t.tailBytes)) := by
  rw [encodeTiff_drop_8]
  simp [encDir, List.append_assoc]

theorem encodeTiff_drop_10 (le : Bool) (t : LogicalTiff) :
    (encodeTiff le t).drop 10 =
      encEntries le t.rootEntries ++ (encDir le t.exifEntries ++ t.tailBytes) := by
  have h := drop_of_drop_append _ 8 2 _ _ (enc16_length le t.rootEntries.length)
    (encodeTiff_drop_8' le t)
  simpa using h

theorem encodeTiff_drop_exifOfs (le : Bool) (t : LogicalTiff) :
    (encodeTiff le t).drop (exifOfs t) = encDir le t.exifEntries ++ t.tailBytes := by
  have h := drop_of_drop_append _ 10 (12 * t.rootEntries.length) _ _
    (encEntries_length le t.rootEntries) (encodeTiff_drop_10 le t)
  exact h

theorem encodeTiff_drop_exifOfs' (le : Bool) (t : LogicalTiff) :
    (encodeTiff le t).drop (exifOfs t) =
      enc16 le t.exifEntries.length ++ (encEntries le t.exifEntries ++ t.tailBytes) := by
  rw [encodeTiff_drop_exifOfs]
  simp [encDir, List.append_assoc]

theorem encodeTiff_drop_exifEntries (le : Bool) (t : LogicalTiff) :
    (encodeTiff le t).drop (exifOfs t + 2) = encEntries le t.exifEntries ++ t.tailBytes := by
  have h := drop_of_drop_append _ (exifOfs t) 2 _ _ (enc16_length le t.exifEntries.length)
    (encodeTiff_drop_exifOfs' le t)
  exact h

theorem encodeTiff_drop_dataOfs (le : Bool) (t : LogicalTiff) :
    (encodeTiff le t).drop (dataOfs t) = t.tailBytes := by
  have h := drop_of_drop_append _ (exifOfs t + 2) (12 * t.exifEntries.length) _ _
    (encEntries_length le t.exifEntries) (encodeTiff_drop_exifEntries le t)
  exact h

set_option maxHeartbeats 1000000 in
theorem readEntry_def (le : Bool) (h : Handle) :
    readEntry le h =
      (⟨(read_uint16 le h).1,
        (read_uint16 le (read_uint16 le h).2).1,
        (read_uint32 le (read_uint16 le (read_uint16 le h).2).2).1,
        (read_uint32 le (read_uint32 le (read_uint16 le (read_uint16 le h).2).2).2).1⟩,
       (read_uint32 le (read_uint32 le (read_uint16 le (read_uint16 le h).2).2).2).2) := rfl

/-- Reading back `es.length` consecutive encoded entries recovers `es`. -/
theorem entriesAtH_enc (le : Bool) (f : List Nat) :
    ∀ (es : List Entry) (p : Nat) (r : List Nat),
      f.drop p = encEntries le es ++ r → (∀ e ∈ es, entryWF e) →
      entriesAtH le es.length ⟨f, p⟩ = es := by
  intro es
  induction es with
  | nil => intro p r _ _; rfl
  | cons e es ih =>
    intro p r hd hwf
    rw [List.forall_mem_cons] at hwf
    obtain ⟨⟨hw1, hw2, hw3, hw4⟩, hwfes⟩ := hwf
    have hd1 : f.drop p =
        enc16 le e.tag ++ (enc16 le e.etype ++ (enc32 le e.cnt ++
          (enc32 le e.voff ++ (encEntries le es ++ r)))) := by
      rw [hd]
      simp [encEntries, encEntry, List.append_assoc]
    have r1 := read_uint16_enc le f p e.tag _ hd1 hw1
    have hd2 := drop_of_drop_append f p 2 _ _ (enc16_length le e.tag) hd1
    have r2 := read_uint16_enc le f (p + 2) e.etype _ hd2 hw2
    have hd3 := drop_of_drop_append f (p + 2) 2 _ _ (enc16_length le e.etype) hd2
    have r3 := read_uint32_enc le f (p + 2 + 2) e.cnt _ hd3 hw3
    have hd4 := drop_of_drop_append f (p + 2 + 2) 4 _ _ (enc32_length le e.cnt) hd3
    have r4 := read_uint32_enc le f (p + 2 + 2 + 4) e.voff _ hd4 hw4
    have hd5 := drop_of_drop_append f (p + 2 + 2 + 4) 4 _ _ (enc32_length le e.voff) hd4
    have hre : readEntry le ⟨f, p⟩ = (e, ⟨f, p + 2 + 2 + 4 + 4⟩) := by
      rw [readEntry_def, r1]
      dsimp only
      rw [r2]
      dsimp only
      rw [r3]
      dsimp only
      rw [r4]
    show entriesAtH le (Nat.succ es.length) ⟨f, p⟩ = e :: es
    rw [entriesAtH_succ, hre]
    dsimp only
    rw [ih (p + 2 + 2 + 4 + 4) r hd5 hwfes]

theorem findExifE_mem :
    ∀ (es : List Entry) (v : Nat), findExifE es = some v →
      ∃ e ∈ es, e.tag = 34665 ∧ e.voff = v := by
  intro es
  induction es with
  | nil => intro v h; simp [findExifE] at h
  | cons e es ih =>
    intro v h
    by_cases htag : e.tag = 34665
    · rw [findExifE, if_pos htag] at h
      injection h with h
      exact ⟨e, List.mem_cons_self e es, htag, h⟩
    · rw [findExifE, if_neg htag] at h
      obtain ⟨e1, hmem, h1, h2⟩ := ih v h
      exact ⟨e1, List.mem_cons_of_mem e hmem, h1, h2⟩

/-- The payload text of an entry whose value range lies in the payload
region, read out of the logical structure's `tailBytes` directly. -/
def payloadTextT (t : LogicalTiff) (e : Entry) : List Char :=
  decodeBytes ((t.tailBytes.drop (e.voff - dataOfs t)).take e.cnt)

def findOriginT (t : LogicalTiff) : List Entry → Option (List Char)
  | [] => none
  | e :: es =>
    if e.tag = 37500 ∧ e.etype = 7 then
      if looksLikeOriginJson (payloadTextT t e) then some (payloadTextT t e)
      else findOriginT t es
    else findOriginT t es

theorem findOriginE_eq_findOriginT (le : Bool) (t : LogicalTiff) :
    ∀ es : List Entry,
      (∀ e ∈ es, e.tag = 37500 → e.etype = 7 → dataOfs t ≤ e.voff) →
      findOriginE (encodeTiff le t) es = findOriginT t es := by
  intro es
  induction es with
  | nil => intro _; rfl
  | cons e es ih =>
    intro hb
    rw [List.forall_mem_cons] at hb
    obtain ⟨hbe, hbes⟩ := hb
    by_cases htag : e.tag = 37500 ∧ e.etype = 7
    · have hvo : dataOfs t ≤ e.voff := hbe htag.1 htag.2
      have hpt : payloadTextOf (encodeTiff le t) e = payloadTextT t e := by
        unfold payloadTextOf payloadTextT
        have h1 : (encodeTiff le t).drop e.voff =
            t.tailBytes.drop (e.voff - dataOfs t) := by
          have h2 : (encodeTiff le t).drop e.voff =
              ((encodeTiff le t).drop (dataOfs t)).drop (e.voff - dataOfs t) := by
            rw [List.drop_drop]
            congr 1
            omega
          rw [h2, encodeTiff_drop_dataOfs]
        rw [h1]
      rw [findOriginE, findOriginT, if_pos htag, if_pos htag, hpt, ih hbes]
    · rw [findOriginE, findOriginT, if_neg htag, if_neg htag, ih hbes]

/-- The byte-order-free result of running the pipeline over the canonical
encoding of a well-formed logical TIFF. -/
def encodedResult (t : LogicalTiff) : Except PyErr (Option Json) :=
  if t.rootEntries.length > 1000 then .ok none
  else
    match findExifE t.rootEntries with
    | none => .ok none
    | some _ =>
      if t.exifEntries.length > 100 then .ok none
      else
        match findOriginT t t.exifEntries with
        | none => .ok none
        | some jsonText =>
          if jsonText = [] then .ok none
          else
            match parseJson jsonText with
            | some j => .ok (some j)
            | none => .error PyErr.jsonDecodeError

theorem afterHeader_enc (le : Bool) (t : LogicalTiff) (hwf : WFTiff t) :
    afterHeader (encodeTiff le t) le = encodedResult t := by
  obtain ⟨hlen1, hlen2, hwfroot, hwfexif, hptr, hpay⟩ := hwf
  unfold afterHeader encodedResult
  rw [read_uint32_enc le (encodeTiff le t) 4 8 _ (encodeTiff_drop_4 le t) (by norm_num)]
  dsimp only
  rw [scan_ifd_result]
  dsimp only
  rw [if_neg (by norm_num : ¬(8 : Nat) = 0)]
  rw [read_uint16_enc le (encodeTiff le t) 8 t.rootEntries.length _
    (encodeTiff_drop_8' le t) hlen1]
  dsimp only
  by_cases hroot : t.rootEntries.length > 1000
  · rw [if_pos hroot, if_pos hroot]
  · rw [if_neg hroot, if_neg hroot]
    rw [entriesAtH_enc le (encodeTiff le t) t.rootEntries 10 _
      (encodeTiff_drop_10 le t) hwfroot]
    cases hfe : findExifE t.rootEntries with
    | none => rfl
    | some v =>
      obtain ⟨e, hmem, htag, hvoff⟩ := findExifE_mem t.rootEntries v hfe
      have hv : v = exifOfs t := by rw [← hvoff, hptr e hmem htag]
      subst hv
      dsimp only
      rw [if_neg (by unfold exifOfs; omega : ¬exifOfs t = 0)]
      rw [scan_exif_result]
      dsimp only
      rw [read_uint16_enc le (encodeTiff le t) (exifOfs t) t.exifEntries.length _
        (encodeTiff_drop_exifOfs' le t) hlen2]
      dsimp only
      by_cases hex : t.exifEntries.length > 100
      · rw [if_pos hex, if_pos hex]
      · rw [if_neg hex, if_neg hex]
        rw [entriesAtH_enc le (encodeTiff le t) t.exifEntries (exifOfs t + 2) _
          (encodeTiff_drop_exifEntries le t) hwfexif]
        rw [findOriginE_eq_findOriginT le t t.exifEntries hpay]

/-- Over the canonical encoding the whole extraction body reduces to the
byte-order-free `encodedResult`. -/
theorem extractBody_enc (le : Bool) (t : LogicalTiff) (hwf : WFTiff t) :
    extractBody (some (encodeTiff le t)) = encodedResult t := by
  have hbo : ((encodeTiff le t).take 2 = [73, 73] ∧ le = true) ∨
      ((encodeTiff le t).take 2 = [77, 77] ∧ le = false) := by
    cases le
    · right
      exact ⟨encodeTiff_take_2 false t, rfl⟩
    · left
      exact ⟨encodeTiff_take_2 true t, rfl⟩
  have hm : (read_uint16 le ⟨encodeTiff le t, 2⟩).1 = 42 := by
    have h := read_uint16_enc le (encodeTiff le t) 2 42 _ (encodeTiff_drop_2 le t)
      (by norm_num)
    rw [h]
  rw [extractBody_eq (encodeTiff le t) le hbo hm, afterHeader_enc le t hwf]

theorem findOriginE_none (f : List Nat) :
    ∀ es : List Entry, (∀ e ∈ es, ¬(e.tag = 37500 ∧ e.etype = 7)) →
      findOriginE f es = none := by
  intro es
  induction es with
  | nil => intro _; rfl
  | cons e es ih =>
    intro hb
    rw [List.forall_mem_cons] at hb
    rw [findOriginE, if_neg hb.1, ih hb.2]

theorem findExifE_eq_findFirst :
    ∀ es : List Entry,
      findExifE es = (es.find? (fun e => e.tag == 34665)).map Entry.voff := by
  intro es
  induction es with
  | nil => rfl
  | cons e es ih =>
    by_cases htag : e.tag = 34665
    · rw [findExifE, if_pos htag, List.find?_cons_of_pos _ (by simp [htag])]
      rfl
    · rw [findExifE, if_neg htag, List.find?_cons_of_neg _ (by simp [htag]), ih]

theorem findOriginE_eq_findFirst (f : List Nat) :
    ∀ es : List Entry,
      findOriginE f es =
        (es.find? (fun e => (e.tag == 37500) && (e.etype == 7) &&
          looksLikeOriginJson (payloadTextOf f e))).map (payloadTextOf f) := by
  intro es
  induction es with
  | nil => rfl
  | cons e es ih =>
    by_cases htag : e.tag = 37500 ∧ e.etype = 7
    · by_cases hsniff : looksLikeOriginJson (payloadTextOf f e) = true
      · rw [findOriginE, if_pos htag, if_pos hsniff,
          List.find?_cons_of_pos _ (by simp [htag.1, htag.2, hsniff])]
        rfl
      · rw [findOriginE, if_pos htag, if_neg hsniff,
          List.find?_cons_of_neg _ (by simp [hsniff]), ih]
    · rw [findOriginE, if_neg htag,
        List.find?_cons_of_neg _ (by
          simp only [Bool.and_eq_true, beq_iff_eq]
          intro hc
          exact htag ⟨hc.1.1, hc.1.2⟩), ih]

/-- On a file shorter than 8 bytes, the post-marker stage always ends in
the absent result: either the magic check fails (short read coerced to
0), or the 4-byte IFD-offset read is short, yielding offset 0, which the
root scan treats as absent. -/
theorem extractWithOrder_short (le : Bool) (file : List Nat)
    (hlen : file.length < 8) :
    extractWithOrder le ⟨file, 2⟩ = .ok none := by
  rw [extractWithOrder_def]
  by_cases hm : (read_uint16 le ⟨file, 2⟩).1 = 42
  · rw [if_neg (by rw [hm]; exact fun hc => hc rfl)]
    have hp2 : (read_uint16 le ⟨file, 2⟩).2 = ⟨file, 4⟩ :=
      read_uint16_pos_of_ne_zero le _ (by rw [hm]; norm_num)
    rw [hp2]
    have h32 : (read_uint32 le ⟨file, 4⟩).1 = 0 :=
      read_uint32_short le ⟨file, 4⟩ (by show file.length < 4 + 4; omega)
    rw [h32, scan_ifd_result, if_pos rfl]
  · rw [if_pos hm]

/-! ## Claims -/

/-- C9: for every out-of-line payload read, `read_data_at_offset` returns
the bytes of `[value_offset, value_offset + count)` (truncated at
end-of-file when the range extends past it) and leaves the handle —
in particular its cursor position — exactly as it was before the read. -/
theorem c9_read_data_at_offset_frame (h : Handle) (offset count : Nat) :
    (read_data_at_offset h offset count).1 = (h.file.drop offset).take count ∧
    (read_data_at_offset h offset count).2 = h :=
  ⟨rfl, rfl⟩

/-- The decoding rule exactly as claim C5 words it: copy printable ASCII
bytes, stop at the first null byte OR at the first byte outside the
printable range, whichever comes first. -/
def specDecodeC5 : List Nat → List Char
  | [] => []
  | b :: bs =>
    if b = 0 then []
    else if 32 ≤ b ∧ b ≤ 126 then Char.ofNat b :: specDecodeC5 bs
    else []

/-- C5 counterexample: on `[0x41, 0x01, 0x42]` the code's decoder skips
the non-printable `0x01` and keeps going, producing `"AB"`, while the
claimed rule stops at `0x01` and produces `"A"`. -/
theorem c5_counterexample :
    decodeBytes [65, 1, 66] = ['A', 'B'] ∧
    specDecodeC5 [65, 1, 66] = ['A'] ∧
    decodeBytes [65, 1, 66] ≠ specDecodeC5 [65, 1, 66] := by
  refine ⟨rfl, rfl, ?_⟩
  decide

/-- C5 amended: decoding stops only at the first null byte; within the
scanned prefix it keeps exactly the printable ASCII bytes (0x20-0x7E),
silently dropping — not stopping at — other bytes. -/
theorem c5_decode_characterization (bs : List Nat) :
    decodeBytes bs =
      ((bs.takeWhile (fun b => b != 0)).filter
        (fun b => decide (32 ≤ b) && decide (b ≤ 126))).map Char.ofNat := by
  induction bs with
  | nil => rfl
  | cons b bs ih =>
    by_cases h0 : b = 0
    · subst h0
      rfl
    · by_cases hp : 32 ≤ b ∧ b ≤ 126
      · rw [decodeBytes, if_neg h0, if_pos hp]
        rw [List.takeWhile_cons_of_pos (by simp [h0]),
          List.filter_cons_of_pos (by simp [hp.1, hp.2]), List.map_cons, ih]
      · rw [decodeBytes, if_neg h0, if_neg hp]
        rw [List.takeWhile_cons_of_pos (by simp [h0]),
          List.filter_cons_of_neg (by
            simp only [Bool.and_eq_true, decide_eq_true_eq]
            exact fun hc => hp hc), ih]

/-- C8 counterexample: the 4-byte file `b'II\x2a\x00'` is shorter than
the 8-byte header, yet the body completes with the ordinary absent result
`Ok(None)` — no `NotATiff` / `Io`-style failure is signalled, the caller
sees the same `None` as for a TIFF without metadata. -/
theorem c8_counterexample :
    ([73, 73, 42, 0] : List Nat).length < 8 ∧
    extractBody (some [73, 73, 42, 0]) = Except.ok none ∧
    extract_astronomical_metadata (some [73, 73, 42, 0]) = none := by
  refine ⟨by norm_num, rfl, rfl⟩

/-- C8 amended: every file shorter than 8 bytes yields `None` (short
reads are coerced to zero, so the header checks fall through to the
absent result); nothing is raised — the body ends in `Ok(None)` — and
reads never go past end-of-file (every `hread` truncates at the end of
the byte list by definition). -/
theorem c8_short_file_none (file : List Nat) (hlen : file.length < 8) :
    extractBody (some file) = Except.ok none ∧
    extract_astronomical_metadata (some file) = none := by
  have hb : extractBody (some file) = Except.ok none := by
    show (if file.take 2 = [73, 73] then
        extractWithOrder true ⟨file, 0 + (file.take 2).length⟩
      else if file.take 2 = [77, 77] then
        extractWithOrder false ⟨file, 0 + (file.take 2).length⟩
      else .ok none) = .ok none
    by_cases h1 : file.take 2 = [73, 73]
    · rw [if_pos h1, h1]
      exact extractWithOrder_short true file hlen
    · rw [if_neg h1]
      by_cases h2 : file.take 2 = [77, 77]
      · rw [if_pos h2, h2]
        exact extractWithOrder_short false file hlen
      · rw [if_neg h2]
  refine ⟨hb, ?_⟩
  unfold extract_astronomical_metadata
  rw [hb]

/-- Witness for C8 (amended): the 4-byte truncated header. -/
theorem c8_witness :
    extractBody (some ([73, 73, 42, 0] : List Nat)) = Except.ok none ∧
    extract_astronomical_metadata (some ([73, 73, 42, 0] : List Nat)) = none :=
  c8_short_file_none [73, 73, 42, 0] (by norm_num)

/-- A synthetic TIFF whose tag-37500 payload passes the sniff but is not
JSON: `b'StackedInfo{not valid json'` (26 bytes at the payload region). -/
def tiffC1 : LogicalTiff :=
  ⟨[⟨34665, 4, 1, 22⟩], [⟨37500, 7, 26, 36⟩],
   "StackedInfo\x7bnot valid json".data.map Char.toNat⟩

def fileC1 : List Nat := encodeTiff true tiffC1

/-- C1 counterexample: the payload is present and passes the content
sniff (the EXIF scan returns it), its JSON parse fails — and the
top-level extraction returns the plain absent result `None`: the
`json.JSONDecodeError` raised by the body is swallowed by the handler,
so no `InvalidPayload`-style error distinct from `None` ever reaches the
caller. -/
theorem c1_counterexample :
    (scan_exif_for_origin_data true ⟨fileC1, 0⟩ 22).1 =
      some ("StackedInfo\x7bnot valid json".data) ∧
    extractBody (some fileC1) = Except.error PyErr.jsonDecodeError ∧
    extract_astronomical_metadata (some fileC1) = none :=
  ⟨rfl, rfl, rfl⟩

/-- C1 amended: when the payload passes the sniff but fails to parse as
JSON, the body raises `json.JSONDecodeError` — but the top-level
extraction catches it and returns `None`, indistinguishable from the
"no metadata present" result. -/
theorem c1_malformed_json_none (file : List Nat) (le : Bool)
    (exifOffset : Nat) (text : List Char)
    (hbo : (file.take 2 = [73, 73] ∧ le = true) ∨
      (file.take 2 = [77, 77] ∧ le = false))
    (hm : (read_uint16 le ⟨file, 2⟩).1 = 42)
    (hscan : (scan_ifd_for_exif le ⟨file, 8⟩ (read_uint32 le ⟨file, 4⟩).1).1 =
      some exifOffset)
    (hne : exifOffset ≠ 0)
    (htext : (scan_exif_for_origin_data le ⟨file, 0⟩ exifOffset).1 = some text)
    (htne : text ≠ [])
    (hparse : parseJson text = none) :
    extractBody (some file) = Except.error PyErr.jsonDecodeError ∧
    extract_astronomical_metadata (some file) = none := by
  have hb : extractBody (some file) = Except.error PyErr.jsonDecodeError := by
    rw [extractBody_eq file le hbo hm]
    unfold afterHeader
    rw [hscan]
    dsimp only
    rw [if_neg hne, htext]
    dsimp only
    rw [if_neg htne, hparse]
  refine ⟨hb, ?_⟩
  unfold extract_astronomical_metadata
  rw [hb]

/-- Witness for C1 (amended): the sniff-passing, non-JSON payload file. -/
theorem c1_witness :
    extractBody (some fileC1) = Except.error PyErr.jsonDecodeError ∧
    extract_astronomical_metadata (some fileC1) = none :=
  c1_malformed_json_none fileC1 true 22 ("StackedInfo\x7bnot valid json".data)
    (Or.inl ⟨rfl, rfl⟩) rfl rfl (by norm_num) rfl (by decide) rfl

/-- A header followed by a root IFD claiming 1001 entries. -/
def fileC2a : List Nat := [73, 73, 42, 0, 8, 0, 0, 0, 233, 3]

/-- A header, a one-entry root IFD pointing tag 34665 at offset 22, and
an EXIF IFD there claiming 101 entries. -/
def fileC2b : List Nat :=
  [73, 73, 42, 0, 8, 0, 0, 0] ++ [1, 0] ++
    [105, 135, 4, 0, 1, 0, 0, 0, 22, 0, 0, 0] ++ [101, 0]

/-- C2 counterexample: with a root entry count of 1001 (or an EXIF entry
count of 101) the extraction completes with the ordinary absent result
`None` — the body ends in `Ok(None)`, so no `CorruptDirectory`-style
failure distinct from absence is reported. -/
theorem c2_counterexample :
    (read_uint16 true ⟨fileC2a, 8⟩).1 = 1001 ∧
    extractBody (some fileC2a) = Except.ok none ∧
    extract_astronomical_metadata (some fileC2a) = none ∧
    (read_uint16 true ⟨fileC2b, 22⟩).1 = 101 ∧
    extractBody (some fileC2b) = Except.ok none ∧
    extract_astronomical_metadata (some fileC2b) = none :=
  ⟨rfl, rfl, rfl, rfl, rfl, rfl⟩

/-- C2 amended: an entry count over the ceiling (1000 for the root IFD,
100 for the EXIF IFD) makes the corresponding scan return the absent
value, so the top-level extraction returns `None` — the ceilings guard
the walk, but oversized counts are reported as absence, not as a
distinct error. -/
theorem c2_oversized_count_none (file : List Nat) (le : Bool)
    (hbo : (file.take 2 = [73, 73] ∧ le = true) ∨
      (file.take 2 = [77, 77] ∧ le = false))
    (hm : (read_uint16 le ⟨file, 2⟩).1 = 42) :
    ((read_uint32 le ⟨file, 4⟩).1 ≠ 0 →
      (read_uint16 le ⟨file, (read_uint32 le ⟨file, 4⟩).1⟩).1 > 1000 →
      extract_astronomical_metadata (some file) = none) ∧
    (∀ exifOffset : Nat,
      (scan_ifd_for_exif le ⟨file, 8⟩ (read_uint32 le ⟨file, 4⟩).1).1 =
        some exifOffset →
      exifOffset ≠ 0 →
      (read_uint16 le ⟨file, exifOffset⟩).1 > 100 →
      extract_astronomical_metadata (some file) = none) := by
  constructor
  · intro hv0 hcount
    unfold extract_astronomical_metadata
    rw [extractBody_eq file le hbo hm]
    unfold afterHeader
    rw [scan_ifd_result]
    dsimp only
    rw [if_neg hv0, if_pos hcount]
  · intro exifOffset hscan hne hcount
    unfold extract_astronomical_metadata
    rw [extractBody_eq file le hbo hm]
    unfold afterHeader
    rw [hscan]
    dsimp only
    rw [if_neg hne, scan_exif_result]
    dsimp only
    rw [if_pos hcount]

/-- Witness for C2 (amended): both ceilings, on the two concrete files. -/
theorem c2_witness :
    extract_astronomical_metadata (some fileC2a) = none ∧
    extract_astronomical_metadata (some fileC2b) = none :=
  ⟨(c2_oversized_count_none fileC2a true (Or.inl ⟨rfl, rfl⟩) rfl).1
      (by decide) (by decide),
   (c2_oversized_count_none fileC2b true (Or.inl ⟨rfl, rfl⟩) rfl).2
      22 rfl (by norm_num) (by decide)⟩

/-- C7: with a valid header, a located nonzero EXIF IFD offset, and no
entry of the EXIF directory having tag 37500 together with field type 7,
the extraction returns the absent result `None`.  A tag-37500 entry whose
type is not 7 falls under the hypothesis, so it is treated as absent. -/
theorem c7_no_undefined_tag_none (file : List Nat) (le : Bool)
    (exifOffset : Nat)
    (hbo : (file.take 2 = [73, 73] ∧ le = true) ∨
      (file.take 2 = [77, 77] ∧ le = false))
    (hm : (read_uint16 le ⟨file, 2⟩).1 = 42)
    (hscan : (scan_ifd_for_exif le ⟨file, 8⟩ (read_uint32 le ⟨file, 4⟩).1).1 =
      some exifOffset)
    (hne : exifOffset ≠ 0)
    (hnone : ∀ e ∈ entriesAtH le (read_uint16 le ⟨file, exifOffset⟩).1
        (read_uint16 le ⟨file, exifOffset⟩).2,
      ¬(e.tag = 37500 ∧ e.etype = 7)) :
    extract_astronomical_metadata (some file) = none := by
  unfold extract_astronomical_metadata
  rw [extractBody_eq file le hbo hm]
  unfold afterHeader
  rw [hscan]
  dsimp only
  rw [if_neg hne, scan_exif_result]
  dsimp only
  by_cases hc : (read_uint16 le ⟨file, exifOffset⟩).1 > 100
  · rw [if_pos hc]
  · rw [if_neg hc, findOriginE_none _ _ hnone]

/-- A valid TIFF whose EXIF IFD has one tag-37500 entry of type 2
(ASCII), not type 7. -/
def tiffC7 : LogicalTiff :=
  ⟨[⟨34665, 4, 1, 22⟩], [⟨37500, 2, 5, 36⟩], "hello".data.map Char.toNat⟩

/-- Witness for C7: the wrong-type tag-37500 file yields `None`. -/
theorem c7_witness :
    extract_astronomical_metadata (some (encodeTiff true tiffC7)) = none :=
  c7_no_undefined_tag_none (encodeTiff true tiffC7) true 22
    (Or.inl ⟨rfl, rfl⟩) rfl rfl (by norm_num) (by decide)

/-- The payload bytes of claim C3:
`b'{"StackedInfo":{"objectName":"M42"}}\x00'` (36 text bytes and a null
terminator). -/
def payloadM42 : List Nat :=
  ("\x7b\"StackedInfo\":\x7b\"objectName\":\"M42\"\x7d\x7d".data.map Char.toNat) ++ [0]

/-- A well-formed synthetic TIFF: root IFD with the EXIF pointer at
offset 22, EXIF IFD with one tag-37500 type-7 entry whose 37 value bytes
sit at offset 36. -/
def tiffM42 : LogicalTiff :=
  ⟨[⟨34665, 4, 1, 22⟩], [⟨37500, 7, 37, 36⟩], payloadM42⟩

/-- A well-formed TIFF whose EXIF IFD holds the exact M42 entry (payload
bytes at offset 1236) but declares 101 entries — one over the EXIF
ceiling. -/
def tiffC3x : LogicalTiff :=
  ⟨[⟨34665, 4, 1, 22⟩],
   ⟨37500, 7, 37, 1236⟩ :: List.replicate 100 ⟨0, 0, 0, 0⟩,
   payloadM42⟩

def fileC3x : List Nat := encodeTiff true tiffC3x

set_option maxRecDepth 8000 in
/-- C3 counterexample: a well-formed TIFF whose EXIF IFD does hold a
tag-37500 type-7 entry with exactly the M42 value bytes — but the
directory declares 101 entries, so the 100-entry ceiling makes the scan
return the absent value and the extraction yields `None`, not the M42
document.  The universally quantified claim is therefore false. -/
theorem c3_counterexample :
    WFTiff tiffC3x ∧
    (read_uint16 true ⟨fileC3x, 22⟩).1 = 101 ∧
    (entriesAtH true 101 ⟨fileC3x, 24⟩).head? = some ⟨37500, 7, 37, 1236⟩ ∧
    (fileC3x.drop 1236).take 37 = payloadM42 ∧
    extract_astronomical_metadata (some fileC3x) = none := by
  refine ⟨by decide, rfl, rfl, rfl, rfl⟩

/-- C3 amended: for every file with a valid header on which the root
scan locates a nonzero EXIF offset, whose EXIF entry count is within the
100-entry ceiling, and in which the first tag-37500 type-7 entry with a
sniff-passing payload has exactly the value bytes
`b'{"StackedInfo":{"objectName":"M42"}}\x00'`, the extraction succeeds
with a document in which `json["StackedInfo"]["objectName"] == "M42"`. -/
theorem c3_m42_roundtrip (file : List Nat) (le : Bool) (exifOffset : Nat)
    (e : Entry)
    (hbo : (file.take 2 = [73, 73] ∧ le = true) ∨
      (file.take 2 = [77, 77] ∧ le = false))
    (hm : (read_uint16 le ⟨file, 2⟩).1 = 42)
    (hscan : (scan_ifd_for_exif le ⟨file, 8⟩ (read_uint32 le ⟨file, 4⟩).1).1 =
      some exifOffset)
    (hne : exifOffset ≠ 0)
    (hcount : ¬((read_uint16 le ⟨file, exifOffset⟩).1 > 100))
    (hfind : (entriesAtH le (read_uint16 le ⟨file, exifOffset⟩).1
        (read_uint16 le ⟨file, exifOffset⟩).2).find?
        (fun e1 => (e1.tag == 37500) && (e1.etype == 7) &&
          looksLikeOriginJson (payloadTextOf file e1)) = some e)
    (hpay : (file.drop e.voff).take e.cnt = payloadM42) :
    ∃ j : Json, extract_astronomical_metadata (some file) = some j ∧
      (j.getKey ("StackedInfo".data)).bind
        (fun j2 => j2.getKey ("objectName".data)) = some (Json.str "M42".data) := by
  refine ⟨Json.obj [("StackedInfo".data,
      Json.obj [("objectName".data, Json.str "M42".data)])], ?_, rfl⟩
  unfold extract_astronomical_metadata
  rw [extractBody_eq file le hbo hm]
  unfold afterHeader
  rw [hscan]
  dsimp only
  rw [if_neg hne, scan_exif_result]
  dsimp only
  rw [if_neg hcount, findOriginE_eq_findFirst, hfind]
  have hpt : payloadTextOf file e = decodeBytes payloadM42 := by
    unfold payloadTextOf
    rw [hpay]
  rw [Option.map_some', hpt]
  rfl

/-- Witness for C3 (amended): the synthetic single-entry M42 TIFF. -/
theorem c3_witness :
    ∃ j : Json,
      extract_astronomical_metadata (some (encodeTiff true tiffM42)) = some j ∧
      (j.getKey ("StackedInfo".data)).bind
        (fun j2 => j2.getKey ("objectName".data)) = some (Json.str "M42".data) :=
  c3_m42_roundtrip (encodeTiff true tiffM42) true 22 ⟨37500, 7, 37, 36⟩
    (Or.inl ⟨rfl, rfl⟩) rfl rfl (by norm_num) (by decide) rfl rfl

/-- C4: the same logical directory structure encoded little-endian
(`II`) and big-endian (`MM`, every multi-byte field byte-swapped by the
encoder) produces identical extraction results.  Well-formedness asks
that fields fit their width, that EXIF-pointer entries point at the
encoded EXIF IFD, and that payload ranges lie in the payload region —
without the last two conditions the offsets would alias the directory
bytes themselves, which differ between the encodings. -/
theorem c4_byte_order_independence (t : LogicalTiff) (hwf : WFTiff t) :
    extract_astronomical_metadata (some (encodeTiff true t)) =
      extract_astronomical_metadata (some (encodeTiff false t)) := by
  unfold extract_astronomical_metadata
  rw [extractBody_enc true t hwf, extractBody_enc false t hwf]

/-- Witness for C4: the `M42` structure, whose two encodings both
extract the same (nontrivial) document. -/
theorem c4_witness :
    WFTiff tiffM42 ∧
    extract_astronomical_metadata (some (encodeTiff true tiffM42)) =
      extract_astronomical_metadata (some (encodeTiff false tiffM42)) ∧
    extract_astronomical_metadata (some (encodeTiff false tiffM42)) =
      some (Json.obj [("StackedInfo".data,
        Json.obj [("objectName".data, Json.str "M42".data)])]) :=
  ⟨by decide, c4_byte_order_independence tiffM42 (by decide), rfl⟩

/-- The locator rule exactly as claim C6 words it: the first entry whose
tag is 37500 and whose field type is 7 — with no regard to the payload
sniff — is the one whose payload is used. -/
def specLocator37500 : List Entry → Option Entry
  | [] => none
  | e :: es =>
    if e.tag = 37500 ∧ e.etype = 7 then some e else specLocator37500 es

/-- A TIFF whose EXIF IFD has two tag-37500 type-7 entries: the first
points at `b'garbage'` (fails the sniff), the second at
`b'{"StackedInfo":"second"}'` (passes and parses). -/
def tiffC6 : LogicalTiff :=
  ⟨[⟨34665, 4, 1, 22⟩],
   [⟨37500, 7, 7, 48⟩, ⟨37500, 7, 24, 55⟩],
   ("garbage".data.map Char.toNat) ++
     ("\x7b\"StackedInfo\":\"second\"\x7d".data.map Char.toNat)⟩

def fileC6 : List Nat := encodeTiff true tiffC6

/-- C6 counterexample: the first tag-37500 type-7 entry of the EXIF
directory is the `garbage` one and its payload fails the sniff — yet the
scan returns the second entry's text and the extraction parses it.  The
payload actually used is not the first matching entry's, refuting "only
the first such entry is ever used". -/
theorem c6_counterexample :
    specLocator37500 (entriesAtH true 2 ⟨fileC6, 24⟩) = some ⟨37500, 7, 7, 48⟩ ∧
    looksLikeOriginJson (payloadTextOf fileC6 ⟨37500, 7, 7, 48⟩) = false ∧
    (scan_exif_for_origin_data true ⟨fileC6, 0⟩ 22).1 =
      some ("\x7b\"StackedInfo\":\"second\"\x7d".data) ∧
    payloadTextOf fileC6 ⟨37500, 7, 7, 48⟩ ≠
      "\x7b\"StackedInfo\":\"second\"\x7d".data ∧
    extract_astronomical_metadata (some fileC6) =
      some (Json.obj [("StackedInfo".data, Json.str "second".data)]) := by
  refine ⟨rfl, rfl, rfl, by decide, rfl⟩

/-- C6 amended: for tag 34665 the scan returns the `value_offset` of the
first entry whose tag matches; for tag 37500 it returns the decoded
payload of the first entry whose tag is 37500, whose type is 7, AND
whose decoded payload passes the content sniff — entries that fail the
sniff are skipped, the scan continues with later entries. -/
theorem c6_locator_first_match (le : Bool) (k : Nat) (h : Handle) :
    ((scan_ifd_loop le k h).1 =
      ((entriesAtH le k h).find? (fun e => e.tag == 34665)).map Entry.voff) ∧
    ((scan_exif_loop le k h).1 =
      ((entriesAtH le k h).find? (fun e => (e.tag == 37500) && (e.etype == 7) &&
        looksLikeOriginJson (payloadTextOf h.file e))).map (payloadTextOf h.file)) :=
  ⟨(scan_ifd_loop_eq le k h).trans (findExifE_eq_findFirst _),
   (scan_exif_loop_eq le k h).trans (findOriginE_eq_findFirst _ _)⟩

/-! ## The full exception surface of the extraction (C10)

`extractBody` / `extract_astronomical_metadata` above model only the
exception kinds named by the `except` clause, which suffices for the
claims about the in-band results.  Whether an exception can *escape* the
clause needs the full exception surface of the calls the body makes, two
parts of which lie outside the named tuple in CPython:

* `open(path, 'rb')` raises `ValueError` — not an `OSError`/`IOError` —
  when the path contains an embedded null byte;
* `json.loads` raises `RecursionError` once document nesting exceeds the
  interpreter recursion limit (`sys.getrecursionlimit()`, default 1000);
  a payload that passes the content sniff reaches this call.

The refined model below carries those kinds: `PyExc` extends the three
named kinds with `recursionError` and `valueError`; `parseValE` is the
same parser with its nesting budget set to the recursion limit and the
budget's exhaustion distinguished from an ordinary parse failure; the
handler catches exactly the kinds the `except` clause names and lets the
others propagate. -/

inductive PyExc where
  | ioError
  | jsonDecodeError
  | structError
  | recursionError
  | valueError
deriving DecidableEq

/-- CPython's default interpreter recursion limit, against which the
`json` scanner raises `RecursionError` on deeply nested documents. -/
def pyRecursionLimit : Nat := 1000

inductive JsonFail where
  | decodeError
  | recursionError
deriving DecidableEq

def parseMembersWithE (pv : List Char → Except JsonFail (Json × List Char)) :
    Nat → List Char → Except JsonFail (List (List Char × Json) × List Char)
  | 0, _ => .error .decodeError
  | fuel + 1, s =>
    match skipWs s with
    | '"' :: cs =>
      match parseStrBody (cs.length + 1) cs with
      | none => .error .decodeError
      | some (key, rest1) =>
        match skipWs rest1 with
        | ':' :: rest2 =>
          match pv rest2 with
          | .error f => .error f
          | .ok (v, rest3) =>
            match skipWs rest3 with
            | ',' :: rest4 =>
              match parseMembersWithE pv fuel rest4 with
              | .error f => .error f
              | .ok (kvs, rest5) => .ok ((key, v) :: kvs, rest5)
            | '\x7d' :: rest4 => .ok ([(key, v)], rest4)
            | _ => .error .decodeError
        | _ => .error .decodeError
    | _ => .error .decodeError

def parseElemsWithE (pv : List Char → Except JsonFail (Json × List Char)) :
    Nat → List Char → Except JsonFail (List Json × List Char)
  | 0, _ => .error .decodeError
  | fuel + 1, s =>
    match pv s with
    | .error f => .error f
    | .ok (v, rest) =>
      match skipWs rest with
      | ',' :: rest1 =>
        match parseElemsWithE pv fuel rest1 with
        | .error f => .error f
        | .ok (vs, rest2) => .ok (v :: vs, rest2)
      | ']' :: rest1 => .ok ([v], rest1)
      | _ => .error .decodeError

/-- One JSON value with an explicit nesting budget: entering a container
parses its children on the budget less one, and an exhausted budget is
the distinguished `recursionError`, not a parse failure. -/
def parseValE : Nat → List Char → Except JsonFail (Json × List Char)
  | 0, _ => .error .recursionError
  | depth + 1, s0 =>
    let s := skipWs s0
    match s with
    | [] => .error .decodeError
    | c :: cs =>
      if c = '"' then
        match parseStrBody (cs.length + 1) cs with
        | none => .error .decodeError
        | some (body, rest) => .ok (.str body, rest)
      else if c = '\x7b' then
        match skipWs cs with
        | '\x7d' :: rest => .ok (.obj [], rest)
        | _ =>
          match parseMembersWithE (parseValE depth) (cs.length + 1) cs with
          | .error f => .error f
          | .ok (kvs, rest) => .ok (.obj kvs, rest)
      else if c = '[' then
        match skipWs cs with
        | ']' :: rest => .ok (.arr [], rest)
        | _ =>
          match parseElemsWithE (parseValE depth) (cs.length + 1) cs with
          | .error f => .error f
          | .ok (vs, rest) => .ok (.arr vs, rest)
      else if ("null".data).isPrefixOf s then .ok (.null, s.drop 4)
      else if ("true".data).isPrefixOf s then .ok (.bool true, s.drop 4)
      else if ("false".data).isPrefixOf s then .ok (.bool false, s.drop 5)
      else if ("NaN".data).isPrefixOf s then .ok (.num "NaN".data, s.drop 3)
      else if ("Infinity".data).isPrefixOf s then
        .ok (.num "Infinity".data, s.drop 8)
      else if ("-Infinity".data).isPrefixOf s then
        .ok (.num "-Infinity".data, s.drop 9)
      else
        match lexNumber s with
        | none => .error .decodeError
        | some (lx, rest) => .ok (.num lx, rest)

/-- `json.loads` with the recursion limit modelled: parsing starts with
the interpreter's nesting budget. -/
def parseJsonR (s : List Char) : Except JsonFail Json :=
  match parseValE pyRecursionLimit s with
  | .error f => .error f
  | .ok (j, rest) => if (skipWs rest).isEmpty then .ok j else .error .decodeError

/-- What `open(self.filename, 'rb')` can do for a given path: succeed
with the file's bytes, fail with `IOError`/`OSError` (missing or
unreadable file), or fail with `ValueError` (embedded null byte in the
path). -/
inductive OpenOutcome where
  | readable (file : List Nat)
  | unreadable
  | nulInPath

/-- Lines 103-120 with the refined parser: a parse failure is
`json.JSONDecodeError`; blowing the recursion limit inside `json.loads`
is `RecursionError`. -/
def extractWithOrderR (le : Bool) (h1 : Handle) : Except PyExc (Option Json) :=
  let (magic, h2) := read_uint16 le h1
  if magic ≠ 42 then .ok none
  else
    let (firstIfdOffset, h3) := read_uint32 le h2
    let (exifOffset?, h4) := scan_ifd_for_exif le h3 firstIfdOffset
    match exifOffset? with
    | none => .ok none
    | some exifOffset =>
      if exifOffset = 0 then .ok none
      else
        let (jsonText?, _h5) := scan_exif_for_origin_data le h4 exifOffset
        match jsonText? with
        | none => .ok none
        | some jsonText =>
          if jsonText = [] then .ok none
          else
            match parseJsonR jsonText with
            | .ok j => .ok (some j)
            | .error JsonFail.decodeError => .error PyExc.jsonDecodeError
            | .error JsonFail.recursionError => .error PyExc.recursionError

/-- The `try` body over the full exception surface. -/
def extractBodyR : OpenOutcome → Except PyExc (Option Json)
  | .unreadable => .error PyExc.ioError
  | .nulInPath => .error PyExc.valueError
  | .readable file =>
    let h0 : Handle := ⟨file, 0⟩
    let (byteOrder, h1) := hread h0 2
    if byteOrder = [73, 73] then extractWithOrderR true h1
    else if byteOrder = [77, 77] then extractWithOrderR false h1
    else .ok none

/-- Membership in the tuple of line 122:
`except (IOError, json.JSONDecodeError, struct.error)`. -/
def isCaught : PyExc → Bool
  | PyExc.ioError => true
  | PyExc.jsonDecodeError => true
  | PyExc.structError => true
  | PyExc.recursionError => false
  | PyExc.valueError => false

/-- `extract_astronomical_metadata` over the full exception surface: the
handler turns a caught exception into `None`; any other exception
propagates to the caller. -/
def extract_astronomical_metadataR (o : OpenOutcome) :
    Except PyExc (Option Json) :=
  match extractBodyR o with
  | .ok r => .ok r
  | .error e => if isCaught e then .ok none else .error e

/-- The pipeline below the header for the refined body, canonical
handles as in `afterHeader`. -/
def afterHeaderR (file : List Nat) (le : Bool) : Except PyExc (Option Json) :=
  match (scan_ifd_for_exif le ⟨file, 8⟩ (read_uint32 le ⟨file, 4⟩).1).1 with
  | none => .ok none
  | some exifOffset =>
    if exifOffset = 0 then .ok none
    else
      match (scan_exif_for_origin_data le ⟨file, 0⟩ exifOffset).1 with
      | none => .ok none
      | some jsonText =>
        if jsonText = [] then .ok none
        else
          match parseJsonR jsonText with
          | .ok j => .ok (some j)
          | .error JsonFail.decodeError => .error PyExc.jsonDecodeError
          | .error JsonFail.recursionError => .error PyExc.recursionError

theorem extractWithOrderR_def (le : Bool) (h1 : Handle) :
    extractWithOrderR le h1 =
      if (read_uint16 le h1).1 ≠ 42 then .ok none
      else
        match (scan_ifd_for_exif le (read_uint32 le (read_uint16 le h1).2).2
            (read_uint32 le (read_uint16 le h1).2).1).1 with
        | none => .ok none
        | some exifOffset =>
          if exifOffset = 0 then .ok none
          else
            match (scan_exif_for_origin_data le
                (scan_ifd_for_exif le (read_uint32 le (read_uint16 le h1).2).2
                  (read_uint32 le (read_uint16 le h1).2).1).2 exifOffset).1 with
            | none => .ok none
            | some jsonText =>
              if jsonText = [] then .ok none
              else
                match parseJsonR jsonText with
                | .ok j => .ok (some j)
                | .error JsonFail.decodeError => .error PyExc.jsonDecodeError
                | .error JsonFail.recursionError => .error PyExc.recursionError := rfl

/-- With a recognized byte-order marker and a correct magic number, the
refined body is exactly the canonical pipeline `afterHeaderR`. -/
theorem extractBodyR_eq (file : List Nat) (le : Bool)
    (hbo : (file.take 2 = [73, 73] ∧ le = true) ∨ (file.take 2 = [77, 77] ∧ le = false))
    (hm : (read_uint16 le ⟨file, 2⟩).1 = 42) :
    extractBodyR (OpenOutcome.readable file) = afterHeaderR file le := by
  have hstep : extractBodyR (OpenOutcome.readable file) = extractWithOrderR le ⟨file, 2⟩ := by
    show (if file.take 2 = [73, 73] then
        extractWithOrderR true ⟨file, 0 + (file.take 2).length⟩
      else if file.take 2 = [77, 77] then
        extractWithOrderR false ⟨file, 0 + (file.take 2).length⟩
      else .ok none) = extractWithOrderR le ⟨file, 2⟩
    rcases hbo with ⟨hb, hle⟩ | ⟨hb, hle⟩ <;> subst hle <;> rw [hb] <;> simp
  rw [hstep, extractWithOrderR_def]
  have hm' : ¬((read_uint16 le ⟨file, 2⟩).1 ≠ 42) := by
    rw [hm]
    exact fun hc => hc rfl
  rw [if_neg hm']
  have hp2 : (read_uint16 le ⟨file, 2⟩).2 = ⟨file, 4⟩ := by
    have h42 : (read_uint16 le ⟨file, 2⟩).1 ≠ 0 := by
      rw [hm]
      norm_num
    exact read_uint16_pos_of_ne_zero le ⟨file, 2⟩ h42
  rw [hp2]
  have hv' : (scan_ifd_for_exif le (read_uint32 le ⟨file, 4⟩).2
      (read_uint32 le ⟨file, 4⟩).1).1
      = (scan_ifd_for_exif le ⟨file, 8⟩ (read_uint32 le ⟨file, 4⟩).1).1 := by
    rw [scan_ifd_result, scan_ifd_result]
    rfl
  rw [hv']
  show (match (scan_ifd_for_exif le ⟨file, 8⟩ (read_uint32 le ⟨file, 4⟩).1).1 with
    | none => (.ok none : Except PyExc (Option Json))
    | some exifOffset =>
      if exifOffset = 0 then .ok none
      else
        match (scan_exif_for_origin_data le
            (scan_ifd_for_exif le (read_uint32 le ⟨file, 4⟩).2
              (read_uint32 le ⟨file, 4⟩).1).2 exifOffset).1 with
        | none => .ok none
        | some jsonText =>
          if jsonText = [] then .ok none
          else
            match parseJsonR jsonText with
            | .ok j => .ok (some j)
            | .error JsonFail.decodeError => .error PyExc.jsonDecodeError
            | .error JsonFail.recursionError => .error PyExc.recursionError)
    = afterHeaderR file le
  have hexif : ∀ exifOffset : Nat,
      (scan_exif_for_origin_data le
        (scan_ifd_for_exif le (read_uint32 le ⟨file, 4⟩).2
          (read_uint32 le ⟨file, 4⟩).1).2 exifOffset).1
      = (scan_exif_for_origin_data le ⟨file, 0⟩ exifOffset).1 := by
    intro exifOffset
    rw [scan_exif_result, scan_exif_result]
    rw [scan_ifd_for_exif_file]
    rfl
  unfold afterHeaderR
  cases (scan_ifd_for_exif le ⟨file, 8⟩ (read_uint32 le ⟨file, 4⟩).1).1 with
  | none => rfl
  | some exifOffset =>
    show (if exifOffset = 0 then (.ok none : Except PyExc (Option Json)) else _)
      = (if exifOffset = 0 then .ok none else _)
    by_cases h0 : exifOffset = 0
    · rw [if_pos h0, if_pos h0]
    · rw [if_neg h0, if_neg h0, hexif exifOffset]

/-- The text of the C10 payload: `k` opening brackets followed by
`StackedInfo{` (the suffix makes the content sniff pass; the brackets
nest `k` arrays). -/
def brackets : Nat → List Char
  | 0 => "StackedInfo\x7b".data
  | n + 1 => '[' :: brackets n

/-- The C10 payload bytes: 1100 `[` then `StackedInfo{` (1112 bytes, all
printable ASCII). -/
def payloadC10 : List Nat := (brackets 1100).map Char.toNat

def tiffC10 : LogicalTiff :=
  ⟨[⟨34665, 4, 1, 22⟩], [⟨37500, 7, 1112, 36⟩], payloadC10⟩

def fileC10 : List Nat := encodeTiff true tiffC10

theorem parseElemsWithE_step
    (pv : List Char → Except JsonFail (Json × List Char))
    (fuel : Nat) (s : List Char) :
    parseElemsWithE pv (fuel + 1) s =
      match pv s with
      | .error f => .error f
      | .ok (v, rest) =>
        match skipWs rest with
        | ',' :: rest1 =>
          (match parseElemsWithE pv fuel rest1 with
           | .error f => .error f
           | .ok (vs, rest2) => .ok (v :: vs, rest2))
        | ']' :: rest1 => .ok ([v], rest1)
        | _ => .error .decodeError := rfl

theorem parseValE_step_bracket (d : Nat) (tl : List Char) :
    parseValE (d + 1) ('[' :: tl) =
      match skipWs tl with
      | ']' :: rest => .ok (.arr [], rest)
      | _ =>
        match parseElemsWithE (parseValE d) (tl.length + 1) tl with
        | .error f => .error f
        | .ok (vs, rest) => .ok (.arr vs, rest) := rfl

/-- Descending a bracket chain at least as long as the remaining nesting
budget exhausts the budget: the scan ends in `RecursionError`, exactly
as CPython's scanner does past the recursion limit. -/
theorem parseValE_deepBrackets :
    ∀ d k : Nat, d ≤ k →
      parseValE d (brackets k) = Except.error JsonFail.recursionError := by
  intro d
  induction d with
  | zero => intro k _; rfl
  | succ d ih =>
    intro k hk
    obtain ⟨k', rfl⟩ : ∃ k', k = k' + 1 := ⟨k - 1, by omega⟩
    rw [show brackets (k' + 1) = '[' :: brackets k' from rfl]
    cases k' with
    | zero =>
      have hd0 : d = 0 := by omega
      subst hd0
      rfl
    | succ k1 =>
      rw [parseValE_step_bracket]
      show (match parseElemsWithE (parseValE d) ((brackets (k1 + 1)).length + 1)
          (brackets (k1 + 1)) with
        | .error f => (.error f : Except JsonFail (Json × List Char))
        | .ok (vs, rest) => .ok (.arr vs, rest)) = .error .recursionError
      rw [parseElemsWithE_step, ih (k1 + 1) (by omega)]

theorem brackets_length (n : Nat) : (brackets n).length = n + 12 := by
  induction n with
  | zero => rfl
  | succ n ih =>
    rw [show brackets (n + 1) = '[' :: brackets n from rfl, List.length_cons, ih]

theorem payloadC10_length : payloadC10.length = 1112 := by
  unfold payloadC10
  rw [List.length_map, brackets_length]

/-- The bracket-chain text survives the byte decoding unchanged: every
character is printable ASCII and none is null. -/
theorem decodeBytes_brackets (n : Nat) :
    decodeBytes ((brackets n).map Char.toNat) = brackets n := by
  induction n with
  | zero => decide
  | succ n ih =>
    rw [show brackets (n + 1) = '[' :: brackets n from rfl, List.map_cons,
      show Char.toNat '[' = 91 from rfl]
    show decodeBytes (91 :: (brackets n).map Char.toNat) = '[' :: brackets n
    rw [decodeBytes, if_neg (by norm_num), if_pos (by norm_num : 32 ≤ 91 ∧ 91 ≤ 126),
      ih, show Char.ofNat 91 = '[' from rfl]

theorem containsSub_cons_true (pat : List Char) (c : Char) (cs : List Char)
    (h : containsSub pat cs = true) : containsSub pat (c :: cs) = true := by
  rw [containsSub, h, Bool.or_true]

/-- The bracket-chain text passes the content sniff, so it reaches
`json.loads`. -/
theorem looksLike_brackets (n : Nat) :
    looksLikeOriginJson (brackets n) = true := by
  induction n with
  | zero => decide
  | succ n ih =>
    rw [show brackets (n + 1) = '[' :: brackets n from rfl]
    unfold looksLikeOriginJson at ih ⊢
    rw [Bool.and_eq_true] at ih
    rw [containsSub_cons_true _ _ _ ih.1, containsSub_cons_true _ _ _ ih.2]
    rfl

theorem brackets_ne_nil (n : Nat) : brackets n ≠ [] := by
  cases n with
  | zero => simp [brackets]
  | succ n =>
    rw [show brackets (n + 1) = '[' :: brackets n from rfl]
    simp

/-- The payload text of the C10 file is the bracket chain. -/
theorem payloadText_fileC10 :
    payloadTextOf fileC10 ⟨37500, 7, 1112, 36⟩ = brackets 1100 := by
  unfold payloadTextOf
  dsimp only
  have hdrop : fileC10.drop 36 = payloadC10 := by
    have h := encodeTiff_drop_dataOfs true tiffC10
    rw [show dataOfs tiffC10 = 36 from rfl] at h
    exact h
  rw [hdrop, show (1112 : Nat) = payloadC10.length from payloadC10_length.symm,
    List.take_length]
  exact decodeBytes_brackets 1100

/-- The EXIF scan of the C10 file returns the bracket-chain text. -/
theorem scan_exif_fileC10 :
    (scan_exif_for_origin_data true ⟨fileC10, 0⟩ 22).1 = some (brackets 1100) := by
  rw [scan_exif_result]
  dsimp only
  rw [show (read_uint16 true ⟨fileC10, 22⟩).1 = 1 from rfl]
  rw [if_neg (by norm_num : ¬(1 : Nat) > 100)]
  rw [show entriesAtH true 1 (read_uint16 true ⟨fileC10, 22⟩).2 =
    [⟨37500, 7, 1112, 36⟩] from rfl]
  rw [findOriginE, if_pos ⟨rfl, rfl⟩, payloadText_fileC10,
    if_pos (looksLike_brackets 1100)]

/-- C10 counterexample: two concrete inputs on which the extraction
propagates an exception to the caller: a path with an embedded null byte
(`ValueError` from `open`, outside the caught tuple), and a readable
file whose tag-37500 payload passes the content sniff but nests 1100
arrays, so `json.loads` exhausts the recursion limit — `RecursionError`,
also outside the caught tuple. -/
theorem c10_counterexample :
    extract_astronomical_metadataR OpenOutcome.nulInPath =
      Except.error PyExc.valueError ∧
    looksLikeOriginJson (decodeBytes payloadC10) = true ∧
    extract_astronomical_metadataR (OpenOutcome.readable fileC10) =
      Except.error PyExc.recursionError := by
  refine ⟨rfl, ?_, ?_⟩
  · show looksLikeOriginJson (decodeBytes ((brackets 1100).map Char.toNat)) = true
    rw [decodeBytes_brackets]
    exact looksLike_brackets 1100
  · have hparse : parseJsonR (brackets 1100) = Except.error JsonFail.recursionError := by
      unfold parseJsonR pyRecursionLimit
      rw [parseValE_deepBrackets 1000 1100 (by norm_num)]
    have hbody : extractBodyR (OpenOutcome.readable fileC10) =
        Except.error PyExc.recursionError := by
      rw [extractBodyR_eq fileC10 true (Or.inl ⟨rfl, rfl⟩) rfl]
      unfold afterHeaderR
      rw [show (scan_ifd_for_exif true ⟨fileC10, 8⟩
        (read_uint32 true ⟨fileC10, 4⟩).1).1 = some 22 from rfl]
      dsimp only
      rw [if_neg (by norm_num : ¬(22 : Nat) = 0), scan_exif_fileC10]
      dsimp only
      rw [if_neg (brackets_ne_nil 1100), hparse]
    unfold extract_astronomical_metadataR
    rw [hbody]
    rfl

/-- C10 amended: the extraction terminates on every input, and its
handler catches exactly the exception kinds the `except` clause names —
`IOError`, `json.JSONDecodeError`, `struct.error` are mapped to `None`,
normal results pass through unchanged, and any exception outside the
tuple (such as `RecursionError` from a deeply nested sniff-passing
payload, or `ValueError` from a null byte in the path) propagates to the
caller. -/
theorem c10_exception_routing (o : OpenOutcome) :
    (∀ r : Option Json, extractBodyR o = Except.ok r →
      extract_astronomical_metadataR o = Except.ok r) ∧
    (∀ e : PyExc, extractBodyR o = Except.error e → isCaught e = true →
      extract_astronomical_metadataR o = Except.ok none) ∧
    (∀ e : PyExc, extractBodyR o = Except.error e → isCaught e = false →
      extract_astronomical_metadataR o = Except.error e) := by
  refine ⟨fun r hr => ?_, fun e he hc => ?_, fun e he hc => ?_⟩
  · unfold extract_astronomical_metadataR
    rw [hr]
  · unfold extract_astronomical_metadataR
    rw [he]
    simp [hc]
  · unfold extract_astronomical_metadataR
    rw [he]
    simp [hc]

/-- Witness for C10 (amended): a caught kind mapped to `None`
(`JSONDecodeError` on the malformed-JSON file, `IOError` on an
unreadable path) and an uncaught kind propagated (`ValueError`). -/
theorem c10_witness :
    extract_astronomical_metadataR (OpenOutcome.readable fileC1) =
      Except.ok none ∧
    extract_astronomical_metadataR OpenOutcome.unreadable = Except.ok none ∧
    extract_astronomical_metadataR OpenOutcome.nulInPath =
      Except.error PyExc.valueError :=
  ⟨(c10_exception_routing (OpenOutcome.readable fileC1)).2.1
      PyExc.jsonDecodeError rfl rfl,
   (c10_exception_routing OpenOutcome.unreadable).2.1 PyExc.ioError rfl rfl,
   (c10_exception_routing OpenOutcome.nulInPath).2.2 PyExc.valueError rfl rfl⟩

end StarMask
